import Mathlib

/-!
Shallow embedding of the weather aggregation and degree-day estimation core
of this repository (`preprocess_weather_data.py` and
`weather_data_integration.py`).  Floating point numbers are modelled as exact
rationals, SQLite tables as lists of typed rows, and the SQL queries of the
integration layer as list filters and folds.
-/

/-- The fixed `base_impacts` dictionary of `calculate_event_impact_score`
in `preprocess_weather_data.py` (base impact on the 0-10 scale by event
type), as an association list. -/
def base_impacts_table : List (String × ℚ) :=
  [("Cold", 9), ("Heat", 17/2), ("Snow", 7), ("Thunderstorm", 6),
   ("Rain", 4), ("Fog", 2), ("Hail", 5), ("Wind", 3),
   ("Hurricane", 10), ("Tornado", 10), ("Precipitation", 7/2), ("Cloudy", 1)]

/-- Base impact of an event type
(`base_impacts.get(event_type, 1.0)`: unlisted types default to 1.0). -/
def base_impacts (event_type : String) : ℚ :=
  match base_impacts_table.find? (fun p => p.1 == event_type) with
  | some p => p.2
  | none => 1

/-- The fixed `severity_multipliers` dictionary of
`calculate_event_impact_score`, as an association list. -/
def severity_multipliers_table : List (String × ℚ) :=
  [("Extreme", 1), ("Severe", 4/5), ("Moderate", 3/5), ("Light", 3/10),
   ("Heavy", 9/10), ("UNK", 1/2)]

/-- Severity multiplier
(`severity_multipliers.get(severity, 0.5)`: unknown severities default to
0.5). -/
def severity_multipliers (severity : String) : ℚ :=
  match severity_multipliers_table.find? (fun p => p.1 == severity) with
  | some p => p.2
  | none => 1/2

/-- Impact score of a weather event (`calculate_event_impact_score` in
`preprocess_weather_data.py`): base impact by type, severity multiplier,
duration factor `min(duration, 24)/24`, final score
`base * mult * (0.5 + 0.5 * factor)` clamped to at most `10.0`. -/
def calculate_event_impact_score (event_type severity : String)
    (duration_hours : ℚ) : ℚ :=
  let base_impact := base_impacts event_type
  let severity_multiplier := severity_multipliers severity
  let duration_factor := min duration_hours 24 / 24
  let impact_score := base_impact * severity_multiplier * (1/2 + 1/2 * duration_factor)
  min 10 impact_score

/-- Inferred temperature of an event (`extract_temperature` in
`preprocess_weather_data.py`).  Only the types `Cold` and `Heat` carry a
temperature, as a step table of the severity; every other type yields none. -/
def extract_temperature (severity : String) (event_type : String) : Option ℚ :=
  if event_type = "Cold" then
    if severity = "Extreme" then some 10
    else if severity = "Severe" then some 20
    else if severity = "Moderate" then some 30
    else some 40
  else if event_type = "Heat" then
    if severity = "Extreme" then some 105
    else if severity = "Severe" then some 100
    else if severity = "Moderate" then some 95
    else some 90
  else none

/-- The fixed set of severe weather types (`SEVERE_WEATHER_TYPES`). -/
def SEVERE_WEATHER_TYPES : List String :=
  ["Cold", "Snow", "Thunderstorm", "Hail", "Hurricane", "Tornado", "Heat"]

/-- Numeric severity used by the event-type aggregator
(`severity_map.get(severity, 2.0)` in `process_chunk`). -/
def severity_map (severity : String) : ℚ :=
  if severity = "Extreme" then 4
  else if severity = "Severe" then 3
  else if severity = "Moderate" then 2
  else if severity = "Light" then 1
  else if severity = "Heavy" then 7/2
  else if severity = "UNK" then 2
  else 2

/-- Climate zone estimated from the absolute latitude
(`estimate_climate_zone` in `preprocess_weather_data.py`; longitude is
accepted but unused, as in the source). -/
def estimate_climate_zone (latitude : ℚ) (longitude : ℚ) : Int :=
  let abs_lat := |latitude|
  if abs_lat < 27 then 1
  else if abs_lat < 34 then 2
  else if abs_lat < 40 then 3
  else if abs_lat < 45 then 4
  else 5

/-- A calendar date, as produced by `StartTime(UTC).date()` on the pipeline
side and by `datetime.strptime(s, "%Y-%m-%d")` on the query side. -/
structure Date where
  year : Int
  month : Int
  day : Int
deriving DecidableEq

/-- Date comparison.  The `daily_weather` table stores dates as ISO `TEXT`;
the SQL comparisons `date >= ?` / `date <= ?` are string comparisons, which
for ISO dates coincide with lexicographic order on (year, month, day). -/
def Date.le (a b : Date) : Bool :=
  decide (a.year < b.year ∨ (a.year = b.year ∧
    (a.month < b.month ∨ (a.month = b.month ∧ a.day ≤ b.day))))

/-- Gregorian leap-year test, as in Python's `datetime`. -/
def isLeapYear (y : Int) : Bool :=
  y % 4 == 0 && (y % 100 != 0 || y % 400 == 0)

/-- Days before the first of month `m` in year `y` (for the proleptic
Gregorian calendar used by Python's `datetime.date`). -/
def daysBeforeMonth (y m : Int) : Int :=
  let base :=
    if m = 1 then 0 else if m = 2 then 31 else if m = 3 then 59
    else if m = 4 then 90 else if m = 5 then 120 else if m = 6 then 151
    else if m = 7 then 181 else if m = 8 then 212 else if m = 9 then 243
    else if m = 10 then 273 else if m = 11 then 304 else 334
  if 3 ≤ m ∧ isLeapYear y = true then base + 1 else base

/-- Number of days of month `m` in year `y`. -/
def daysInMonthG (y m : Int) : Int :=
  if m = 1 ∨ m = 3 ∨ m = 5 ∨ m = 7 ∨ m = 8 ∨ m = 10 ∨ m = 12 then 31
  else if m = 4 ∨ m = 6 ∨ m = 9 ∨ m = 11 then 30
  else if isLeapYear y = true then 29 else 28

/-- A well-formed date: one that `datetime.strptime(s, "%Y-%m-%d")` accepts. -/
def Date.Valid (d : Date) : Prop :=
  1 ≤ d.year ∧ 1 ≤ d.month ∧ d.month ≤ 12 ∧ 1 ≤ d.day ∧
    d.day ≤ daysInMonthG d.year d.month

instance (d : Date) : Decidable d.Valid := by
  unfold Date.Valid; exact inferInstance

/-- Day ordinal of a date (Python's `date.toordinal`); the difference of two
ordinals is exactly `(end - start).days` for midnight datetimes. -/
def Date.toOrdinal (d : Date) : Int :=
  let y := d.year - 1
  365 * y + y / 4 - y / 100 + y / 400 + daysBeforeMonth d.year d.month + d.day

/-- The `days_diff = (end - start).days + 1` computation of
`get_degree_days`. -/
def daysDiff (start_date end_date : Date) : Int :=
  end_date.toOrdinal - start_date.toOrdinal + 1

/-- Mean of a list (Python `sum(xs) / len(xs)`). -/
def listAvg (l : List ℚ) : ℚ := l.sum / (l.length : ℚ)

/-- Minimum of a list (Python `min(xs)`), absent for the empty list. -/
def listMin : List ℚ → Option ℚ
  | [] => none
  | x :: t => some (t.foldl min x)

/-- Maximum of a list (Python `max(xs)`), absent for the empty list. -/
def listMax : List ℚ → Option ℚ
  | [] => none
  | x :: t => some (t.foldl max x)

/-- A row of the `locations` table. -/
structure LocationRow where
  location_id : String
  zip_code : String
  city : String
  county : String
  state : String
  latitude : ℚ
  longitude : ℚ
  climate_zone : Int
  event_frequency : ℚ
deriving DecidableEq

/-- A row of the `daily_weather` table (primary key `(date, location_id)`). -/
structure DailyRow where
  date : Date
  location_id : String
  avg_temp : Option ℚ
  min_temp : Option ℚ
  max_temp : Option ℚ
  precipitation : ℚ
  heating_degree_days : ℚ
  cooling_degree_days : ℚ
  severe_events : Nat
  impact_score : ℚ
deriving DecidableEq

/-- A row of the `monthly_stats` table (primary key
`(year, month, location_id)`). -/
structure MonthlyRow where
  year : Int
  month : Int
  location_id : String
  avg_temp : Option ℚ
  total_heating_degree_days : ℚ
  total_cooling_degree_days : ℚ
  precipitation : ℚ
  severe_event_days : Nat
  avg_impact_score : ℚ
deriving DecidableEq

/-- A row of the `event_stats` table (primary key
`(location_id, event_type)`). -/
structure EventStatsRow where
  location_id : String
  event_type : String
  count : Nat
  avg_duration : ℚ
  avg_severity : ℚ
  energy_impact_score : ℚ
deriving DecidableEq

/-- The relational store read by `WeatherDataIntegration`, as lists of rows. -/
structure DB where
  locations : List LocationRow
  daily : List DailyRow
  monthly : List MonthlyRow
  event_stats : List EventStatsRow

/-- Row predicate of the daily query of `get_degree_days`
(`WHERE location_id = ? AND date >= ? AND date <= ?`). -/
def dailyInRange (location_id : String) (start_date end_date : Date)
    (r : DailyRow) : Bool :=
  r.location_id == location_id && Date.le start_date r.date &&
    Date.le r.date end_date

/-- Row predicate of the monthly query of `get_degree_days`
(`((year = ? AND month >= ?) OR (year > ?)) AND
  ((year = ? AND month <= ?) OR (year < ?))`). -/
def monthlyInRange (location_id : String) (start_date end_date : Date)
    (r : MonthlyRow) : Bool :=
  r.location_id == location_id &&
    decide ((r.year = start_date.year ∧ start_date.month ≤ r.month) ∨
      start_date.year < r.year) &&
    decide ((r.year = end_date.year ∧ r.month ≤ end_date.month) ∨
      r.year < end_date.year)

/-- The fixed per-climate-zone daily HDD/CDD rates of `get_degree_days`
(`zone_estimates`); none for a zone outside the 5-entry table. -/
def zoneEstimates (z : Int) : Option (ℚ × ℚ) :=
  if z = 1 then some (1/2, 8)
  else if z = 2 then some (2, 5)
  else if z = 3 then some (5, 3)
  else if z = 4 then some (8, 1)
  else if z = 5 then some (12, 1/2)
  else none

/-- The dictionary returned by `get_degree_days`. -/
structure DegreeDays where
  total_hdd : ℚ
  total_cdd : ℚ
  avg_hdd : ℚ
  avg_cdd : ℚ
  days_count : Int
  is_estimated : Bool
  estimation_method : Option String
deriving DecidableEq

/-- The four-tier degree-day estimator
(`WeatherDataIntegration.get_degree_days`): exact daily rows, else monthly
average daily rates scaled by the range length, else climate-zone rates,
else the generic fallback. -/
def get_degree_days (db : DB) (location_id : String)
    (start_date end_date : Date) : DegreeDays :=
  let drows := db.daily.filter (dailyInRange location_id start_date end_date)
  if drows.length = 0 then
    let days_diff : Int := daysDiff start_date end_date
    let mrows := db.monthly.filter (monthlyInRange location_id start_date end_date)
    if mrows.length = 0 then
      match (List.find? (fun l => l.location_id == location_id) db.locations).bind
          (fun loc => zoneEstimates loc.climate_zone) with
      | some est =>
        { total_hdd := est.1 * (days_diff : ℚ), total_cdd := est.2 * (days_diff : ℚ),
          avg_hdd := est.1, avg_cdd := est.2, days_count := days_diff,
          is_estimated := true, estimation_method := some "climate_zone" }
      | none =>
        { total_hdd := 5 * (days_diff : ℚ), total_cdd := 3 * (days_diff : ℚ),
          avg_hdd := 5, avg_cdd := 3, days_count := days_diff,
          is_estimated := true, estimation_method := some "generic" }
    else
      let avg_daily_hdd :=
        (mrows.map (fun r => r.total_heating_degree_days / 30)).sum / (mrows.length : ℚ)
      let avg_daily_cdd :=
        (mrows.map (fun r => r.total_cooling_degree_days / 30)).sum / (mrows.length : ℚ)
      { total_hdd := avg_daily_hdd * (days_diff : ℚ),
        total_cdd := avg_daily_cdd * (days_diff : ℚ),
        avg_hdd := avg_daily_hdd, avg_cdd := avg_daily_cdd,
        days_count := days_diff, is_estimated := true, estimation_method := none }
  else
    { total_hdd := (drows.map (fun r => r.heating_degree_days)).sum,
      total_cdd := (drows.map (fun r => r.cooling_degree_days)).sum,
      avg_hdd := (drows.map (fun r => r.heating_degree_days)).sum / (drows.length : ℚ),
      avg_cdd := (drows.map (fun r => r.cooling_degree_days)).sum / (drows.length : ℚ),
      days_count := drows.length, is_estimated := false,
      estimation_method := none }

/-- `WeatherDataIntegration.find_nearest_location`: exact (zip, state) or zip
match, else the first location of the requested state, else the first
location of the table, else none. -/
def find_nearest_location (db : DB) (zip_code : String)
    (state : Option String) : Option LocationRow :=
  let exact := match state with
    | some st => db.locations.find?
        (fun (l : LocationRow) => l.zip_code == zip_code && l.state == st)
    | none => db.locations.find? (fun (l : LocationRow) => l.zip_code == zip_code)
  match exact with
  | some row => some row
  | none =>
    match state with
    | some st =>
      match db.locations.find? (fun (l : LocationRow) => l.state == st) with
      | some row => some row
      | none => db.locations.head?
    | none => db.locations.head?

/-- Monthly rows of a location
(`SELECT ... FROM monthly_stats WHERE location_id = ?`). -/
def matchingMonthly (db : DB) (location_id : String) : List MonthlyRow :=
  db.monthly.filter (fun r => r.location_id == location_id)

/-- The distinct months of the grouped monthly query of
`get_seasonal_adjustment_factors` (`GROUP BY month`). -/
def monthsPresent (db : DB) (location_id : String) : List Int :=
  ((matchingMonthly db location_id).map (fun r => r.month)).dedup

/-- The calendar months `range(1, 13)` of the fill-in loop. -/
def monthsIcc : List Int := [1, 2, 3, 4, 5, 6, 7, 8, 9, 10, 11, 12]

/-- `AVG(total_heating_degree_days)` of the rows of one grouped month. -/
def avg_hdd_for (db : DB) (location_id : String) (m : Int) : ℚ :=
  let rows := (matchingMonthly db location_id).filter (fun r => r.month == m)
  (rows.map (fun r => r.total_heating_degree_days)).sum / (rows.length : ℚ)

/-- `AVG(total_cooling_degree_days)` of the rows of one grouped month. -/
def avg_cdd_for (db : DB) (location_id : String) (m : Int) : ℚ :=
  let rows := (matchingMonthly db location_id).filter (fun r => r.month == m)
  (rows.map (fun r => r.total_cooling_degree_days)).sum / (rows.length : ℚ)

/-- The fixed (hdd, cdd) placeholder of `get_seasonal_adjustment_factors`
for a month without stored data (winter 20/0, spring 10/5, summer 0/20,
fall 10/5). -/
def seasonalPlaceholder (m : Int) : ℚ × ℚ :=
  if m = 12 ∨ m = 1 ∨ m = 2 then (20, 0)
  else if m = 3 ∨ m = 4 ∨ m = 5 then (10, 5)
  else if m = 6 ∨ m = 7 ∨ m = 8 then (0, 20)
  else (10, 5)

/-- The `monthly_data` dictionary of `get_seasonal_adjustment_factors`:
per-month average (hdd, cdd) for the months present in the store, the
seasonal placeholder for the calendar months that are missing. -/
def monthlyDataList (db : DB) (location_id : String) : List (Int × (ℚ × ℚ)) :=
  (monthsPresent db location_id).map
    (fun m => (m, (avg_hdd_for db location_id m, avg_cdd_for db location_id m))) ++
  (monthsIcc.filter (fun m => decide (m ∉ monthsPresent db location_id))).map
    (fun m => (m, seasonalPlaceholder m))

/-- `avg_combined`: the sum of the combined (hdd + cdd) values divided by 12. -/
def avg_combined (db : DB) (location_id : String) : ℚ :=
  ((monthlyDataList db location_id).map (fun p => p.2.1 + p.2.2)).sum / 12

/-- `WeatherDataIntegration.get_seasonal_adjustment_factors`: per-month
factor `combined / avg_combined` (or `1.0` when `avg_combined <= 0`),
clamped to `[0.6, 1.8]`. -/
def get_seasonal_adjustment_factors (db : DB) (location_id : String) :
    List (Int × ℚ) :=
  (monthlyDataList db location_id).map (fun p =>
    let factor := if 0 < avg_combined db location_id
      then (p.2.1 + p.2.2) / avg_combined db location_id else 1
    (p.1, max (3/5) (min (9/5) factor)))

/-- An input weather-event record after the chunk-level `dropna` of
`process_chunk` (type, severity and the start/end instants present; the
start instant is kept as its calendar date plus the computed duration). -/
structure Event where
  type : String
  severity : String
  start_date : Date
  duration_hours : ℚ
  precipitation : Option ℚ
  zip_code : Option String
  state : Option String
  city : String
  county : String
  latitude : ℚ
  longitude : ℚ

/-- Accumulated per-location data (`location_data[location_id]`). -/
structure LocAgg where
  zip_code : String
  city : String
  county : String
  state : String
  latitude : ℚ
  longitude : ℚ
  event_count : Nat
  climate_zone : Int

/-- Accumulated per (location, date) data (`daily_weather[loc][date]`). -/
structure DailyAgg where
  temp_values : List ℚ
  precipitation : ℚ
  severe_events : Nat
  impact_scores : List ℚ

/-- Accumulated per (location, year, month) data
(`monthly_stats[loc][year][month]`); `severe_event_days` is a set of dates,
kept as a duplicate-free list. -/
structure MonthlyAgg where
  temp_values : List ℚ
  precipitation : ℚ
  severe_event_days : List Date
  impact_scores : List ℚ

/-- Accumulated per (location, event type) data (`event_stats[loc][type]`). -/
structure EventAgg where
  count : Nat
  duration_total : ℚ
  severity_values : List ℚ
  impact_scores : List ℚ

/-- The in-memory accumulation state of one run, as association lists keyed
by the respective composite keys. -/
structure AggState where
  location_data : List (String × LocAgg)
  daily_weather : List ((String × Date) × DailyAgg)
  monthly_stats : List ((String × Int × Int) × MonthlyAgg)
  event_stats : List ((String × String) × EventAgg)

/-- Update of an association list at key `k`: apply `f` to the stored value,
initialising it to `d` when the key is absent (the Python
`if key not in dict: dict[key] = init` followed by a mutation). -/
def updAssoc {α β : Type} [DecidableEq α] (k : α) (d : β) (f : β → β) :
    List (α × β) → List (α × β)
  | [] => [(k, f d)]
  | (k2, v) :: t =>
    if k2 = k then (k2, f v) :: t else (k2, v) :: updAssoc k d f t

/-- One iteration of the per-event loop of `process_chunk`: skip the event
when zip code or state is missing, otherwise update the four accumulation
maps. -/
def processEvent (st : AggState) (e : Event) : AggState :=
  match e.zip_code, e.state with
  | some zip, some stv =>
    let location_id := zip ++ "_" ++ stv
    let local_date := e.start_date
    let year := e.start_date.year
    let month := e.start_date.month
    let temp := extract_temperature e.severity e.type
    let impact := calculate_event_impact_score e.type e.severity e.duration_hours
    let severe := SEVERE_WEATHER_TYPES.contains e.type
    { location_data :=
        updAssoc location_id
          { zip_code := zip, city := e.city, county := e.county, state := stv,
            latitude := e.latitude, longitude := e.longitude, event_count := 0,
            climate_zone := estimate_climate_zone e.latitude e.longitude }
          (fun l => { l with event_count := l.event_count + 1 })
          st.location_data
      daily_weather :=
        updAssoc (location_id, local_date)
          { temp_values := [], precipitation := 0, severe_events := 0,
            impact_scores := [] }
          (fun a =>
            { temp_values := match temp with
                | some t => a.temp_values ++ [t]
                | none => a.temp_values
              precipitation := a.precipitation +
                (match e.precipitation with | some p => p | none => 0)
              severe_events := a.severe_events + (if severe then 1 else 0)
              impact_scores := a.impact_scores ++ [impact] })
          st.daily_weather
      monthly_stats :=
        updAssoc (location_id, year, month)
          { temp_values := [], precipitation := 0, severe_event_days := [],
            impact_scores := [] }
          (fun a =>
            { temp_values := match temp with
                | some t => a.temp_values ++ [t]
                | none => a.temp_values
              precipitation := a.precipitation +
                (match e.precipitation with | some p => p | none => 0)
              severe_event_days := if severe then
                  (if local_date ∈ a.severe_event_days then a.severe_event_days
                   else a.severe_event_days ++ [local_date])
                else a.severe_event_days
              impact_scores := a.impact_scores ++ [impact] })
          st.monthly_stats
      event_stats :=
        updAssoc (location_id, e.type)
          { count := 0, duration_total := 0, severity_values := [],
            impact_scores := [] }
          (fun a =>
            { count := a.count + 1
              duration_total := a.duration_total + e.duration_hours
              severity_values := a.severity_values ++ [severity_map e.severity]
              impact_scores := a.impact_scores ++ [impact] })
          st.event_stats }
  | _, _ => st

/-- The full ingestion loop over the input stream, starting from fresh empty
accumulation maps (the chunked read loop of `preprocess_weather_data`). -/
def ingest (input : List Event) : AggState :=
  input.foldl processEvent ⟨[], [], [], []⟩

/-- Flush-time computation of one `daily_weather` row
(`save_daily_weather_data`): average/min/max of the temperature samples
(absent if none), `hdd = max(0, 65 - avg)`, `cdd = max(0, avg - 65)` (0 when
no samples), mean impact score (0 when no samples). -/
def dailyRowOf (date : Date) (location_id : String) (a : DailyAgg) : DailyRow :=
  let avg_temp : Option ℚ :=
    if a.temp_values.isEmpty then none else some (listAvg a.temp_values)
  let hdd : ℚ := match avg_temp with | some t => max 0 (65 - t) | none => 0
  let cdd : ℚ := match avg_temp with | some t => max 0 (t - 65) | none => 0
  let avg_impact : ℚ :=
    if a.impact_scores.isEmpty then 0 else listAvg a.impact_scores
  { date := date, location_id := location_id, avg_temp := avg_temp,
    min_temp := listMin a.temp_values, max_temp := listMax a.temp_values,
    precipitation := a.precipitation, heating_degree_days := hdd,
    cooling_degree_days := cdd, severe_events := a.severe_events,
    impact_score := avg_impact }

/-- Flush-time computation of one `monthly_stats` row
(`save_monthly_statistics`): totals are the degree-day rate of the monthly
average temperature multiplied by a fixed `days_in_month = 30`, regardless
of the actual month length; 0 when there are no temperature samples. -/
def monthlyRowOf (year month : Int) (location_id : String) (a : MonthlyAgg) :
    MonthlyRow :=
  let avg_temp : Option ℚ :=
    if a.temp_values.isEmpty then none else some (listAvg a.temp_values)
  let avg_impact : ℚ :=
    if a.impact_scores.isEmpty then 0 else listAvg a.impact_scores
  let total_hdd : ℚ := match avg_temp with
    | some t => max 0 (65 - t) * 30
    | none => 0
  let total_cdd : ℚ := match avg_temp with
    | some t => max 0 (t - 65) * 30
    | none => 0
  { year := year, month := month, location_id := location_id,
    avg_temp := avg_temp, total_heating_degree_days := total_hdd,
    total_cooling_degree_days := total_cdd, precipitation := a.precipitation,
    severe_event_days := a.severe_event_days.length, avg_impact_score := avg_impact }

/-- Flush-time computation of one `locations` row (`save_location_data`);
`event_frequency = event_count / 7.0`. -/
def locationRowOf (location_id : String) (a : LocAgg) : LocationRow :=
  { location_id := location_id, zip_code := a.zip_code, city := a.city,
    county := a.county, state := a.state, latitude := a.latitude,
    longitude := a.longitude, climate_zone := a.climate_zone,
    event_frequency := (a.event_count : ℚ) / 7 }

/-- Flush-time computation of one `event_stats` row
(`save_event_statistics`). -/
def eventRowOf (location_id event_type : String) (a : EventAgg) : EventStatsRow :=
  { location_id := location_id, event_type := event_type, count := a.count,
    avg_duration := if 0 < a.count then a.duration_total / (a.count : ℚ) else 0,
    avg_severity := if a.severity_values.isEmpty then 0 else listAvg a.severity_values,
    energy_impact_score :=
      if a.impact_scores.isEmpty then 0 else listAvg a.impact_scores }

/-- The persisted aggregate store as SQL sees it: for each table a partial
map from its primary key to the row (tables are unordered, keyed sets of
rows). -/
structure Store where
  locations : String → Option LocationRow
  daily : Date × String → Option DailyRow
  monthly : Int × Int × String → Option MonthlyRow
  event_stats : String × String → Option EventStatsRow

/-- `INSERT OR REPLACE` of one row under its primary key. -/
def upsert {κ ρ : Type} [DecidableEq κ] (t : κ → Option ρ) (k : κ) (r : ρ) :
    κ → Option ρ :=
  fun k2 => if k2 = k then some r else t k2

/-- Sequential `INSERT OR REPLACE` of a list of keyed rows (the batched
`executemany` loops; batching in groups of 1000 does not change the
sequential upsert semantics). -/
def applyUpserts {κ ρ : Type} [DecidableEq κ] (t : κ → Option ρ)
    (rows : List (κ × ρ)) : κ → Option ρ :=
  rows.foldl (fun acc p => upsert acc p.1 p.2) t

/-- The keyed `locations` rows flushed from the accumulation state. -/
def locationRows (st : AggState) : List (String × LocationRow) :=
  st.location_data.map (fun p => (p.1, locationRowOf p.1 p.2))

/-- The keyed `daily_weather` rows flushed from the accumulation state
(primary key `(date, location_id)`). -/
def dailyRows (st : AggState) : List ((Date × String) × DailyRow) :=
  st.daily_weather.map (fun p => ((p.1.2, p.1.1), dailyRowOf p.1.2 p.1.1 p.2))

/-- The keyed `monthly_stats` rows flushed from the accumulation state
(primary key `(year, month, location_id)`). -/
def monthlyRows (st : AggState) : List ((Int × Int × String) × MonthlyRow) :=
  st.monthly_stats.map
    (fun p => ((p.1.2.1, p.1.2.2, p.1.1), monthlyRowOf p.1.2.1 p.1.2.2 p.1.1 p.2))

/-- The keyed `event_stats` rows flushed from the accumulation state
(primary key `(location_id, event_type)`). -/
def eventRows (st : AggState) : List ((String × String) × EventStatsRow) :=
  st.event_stats.map (fun p => (p.1, eventRowOf p.1.1 p.1.2 p.2))

/-- One full pipeline run (`preprocess_weather_data`): ingest the whole
input into fresh in-memory maps, then flush every aggregate into the store
with insert-or-replace writes keyed on each table's primary key. -/
def runPipeline (input : List Event) (s : Store) : Store :=
  let st := ingest input
  { locations := applyUpserts s.locations (locationRows st)
    daily := applyUpserts s.daily (dailyRows st)
    monthly := applyUpserts s.monthly (monthlyRows st)
    event_stats := applyUpserts s.event_stats (eventRows st) }

/-- Value of the last occurrence of key `k` in a keyed row list (used to
characterise what a sequence of upserts leaves at `k`). -/
def lastVal {κ ρ : Type} [DecidableEq κ] : List (κ × ρ) → κ → Option ρ
  | [], _ => none
  | p :: t, k =>
    match lastVal t k with
    | some v => some v
    | none => if k = p.1 then some p.2 else none

/-- A sample `locations` row used by witness theorems. -/
def sampleLocation : LocationRow :=
  { location_id := "10001_NY", zip_code := "10001", city := "New York",
    county := "New York", state := "NY", latitude := 40, longitude := -73,
    climate_zone := 4, event_frequency := 1 }

/-- A store holding a single location, used by witness theorems. -/
def sampleLocDB : DB :=
  { locations := [sampleLocation], daily := [], monthly := [], event_stats := [] }

/-- A store with no daily rows and one monthly row, used by witness
theorems for the monthly estimation tier. -/
def sampleMonthlyDB : DB :=
  { locations := [], daily := [],
    monthly := [{ year := 2021, month := 7, location_id := "90210_CA",
                  avg_temp := some 80, total_heating_degree_days := 0,
                  total_cooling_degree_days := 450, precipitation := 0,
                  severe_event_days := 3, avg_impact_score := 0 }],
    event_stats := [] }

/-- A store with one monthly row for every calendar month, all with the
same combined degree days, used by witness theorems for the seasonal
factors. -/
def sampleSeasonalDB : DB :=
  { locations := [], daily := [],
    monthly := monthsIcc.map (fun m =>
      { year := 2021, month := m, location_id := "90210_CA", avg_temp := none,
        total_heating_degree_days := 10, total_cooling_degree_days := 5,
        precipitation := 0, severe_event_days := 0, avg_impact_score := 0 }),
    event_stats := [] }

/-- Unfolding equation for `calculate_event_impact_score`. -/
theorem calculate_event_impact_score_eq (event_type severity : String)
    (duration_hours : ℚ) :
    calculate_event_impact_score event_type severity duration_hours =
      min 10 (base_impacts event_type * severity_multipliers severity *
        (1/2 + 1/2 * (min duration_hours 24 / 24))) := rfl

/-- Every base impact lies in [1, 10]. -/
theorem base_impacts_bounds (event_type : String) :
    1 ≤ base_impacts event_type ∧ base_impacts event_type ≤ 10 := by
  unfold base_impacts
  cases h : base_impacts_table.find? (fun p => p.1 == event_type) with
  | none => norm_num
  | some p =>
    have hp := List.mem_of_find?_eq_some h
    have hall : ∀ q ∈ base_impacts_table, 1 ≤ q.2 ∧ q.2 ≤ 10 := by
      intro q hq
      fin_cases hq <;> norm_num
    exact hall p hp

/-- Every severity multiplier lies in [3/10, 1]. -/
theorem severity_multipliers_bounds (severity : String) :
    3/10 ≤ severity_multipliers severity ∧ severity_multipliers severity ≤ 1 := by
  unfold severity_multipliers
  cases h : severity_multipliers_table.find? (fun p => p.1 == severity) with
  | none => norm_num
  | some p =>
    have hp := List.mem_of_find?_eq_some h
    have hall : ∀ q ∈ severity_multipliers_table, 3/10 ≤ q.2 ∧ q.2 ≤ 1 := by
      intro q hq
      fin_cases hq <;> norm_num
    exact hall p hp

/-- C2: for every event type, severity string and duration, the impact score
equals `min(10, base(type) * mult(severity) * (0.5 + 0.5 * min(duration,24)/24))`
with the fixed lookup tables (defaults 1.0 and 0.5); in particular a Cold
event of severity Extreme lasting 3 hours scores 9.0 * 1.0 * 0.5625 = 5.0625. -/
theorem impact_score_formula_and_scenario (event_type severity : String)
    (duration_hours : ℚ) :
    calculate_event_impact_score event_type severity duration_hours =
      min 10 (base_impacts event_type * severity_multipliers severity *
        (1/2 + 1/2 * (min duration_hours 24 / 24))) ∧
    calculate_event_impact_score "Cold" "Extreme" 3 = 81/16 := by
  refine ⟨rfl, ?_⟩
  have h3 : min (3 : ℚ) 24 = 3 := by norm_num
  have hb : base_impacts "Cold" = 9 := by simp [base_impacts, base_impacts_table]
  have hm : severity_multipliers "Extreme" = 1 := by
    simp [severity_multipliers, severity_multipliers_table]
  rw [calculate_event_impact_score_eq, h3, hb, hm]
  norm_num

/-- C3 counterexample: with a negative duration (possible, since the source
computes `end - start` without guarding against `end < start`) the score
leaves [0, 10]: a Cold/Extreme event with duration -48 hours scores -4.5. -/
theorem impact_score_range_counterexample :
    ¬ (0 ≤ calculate_event_impact_score "Cold" "Extreme" (-48) ∧
       calculate_event_impact_score "Cold" "Extreme" (-48) ≤ 10) := by
  intro h
  have h48 : min (-48 : ℚ) 24 = -48 := by norm_num
  have hb : base_impacts "Cold" = 9 := by simp [base_impacts, base_impacts_table]
  have hm : severity_multipliers "Extreme" = 1 := by
    simp [severity_multipliers, severity_multipliers_table]
  have hs : calculate_event_impact_score "Cold" "Extreme" (-48) = -9/2 := by
    rw [calculate_event_impact_score_eq, h48, hb, hm]
    norm_num
  rw [hs] at h
  norm_num at h

/-- C3 (amended): for every event type, severity and nonnegative duration
the score lies in [0, 10]; for fixed type and severity it is monotonically
non-decreasing in duration on [0, 24] and constant above 24.  (For negative
durations, which the source does not guard against, the score can drop
below 0.) -/
theorem impact_score_bounds_and_monotone (event_type severity : String)
    (d d' : ℚ) :
    (0 ≤ d → 0 ≤ calculate_event_impact_score event_type severity d ∧
      calculate_event_impact_score event_type severity d ≤ 10) ∧
    (0 ≤ d → d ≤ d' → d' ≤ 24 →
      calculate_event_impact_score event_type severity d ≤
        calculate_event_impact_score event_type severity d') ∧
    (24 ≤ d → calculate_event_impact_score event_type severity d =
        calculate_event_impact_score event_type severity 24) := by
  obtain ⟨hb1, hb2⟩ := base_impacts_bounds event_type
  obtain ⟨hm1, hm2⟩ := severity_multipliers_bounds severity
  have hB : 0 ≤ base_impacts event_type * severity_multipliers severity := by
    apply mul_nonneg <;> linarith
  refine ⟨?_, ?_, ?_⟩
  · intro hd
    constructor
    · rw [calculate_event_impact_score_eq]
      have hmin : 0 ≤ min d 24 := le_min hd (by norm_num)
      have hf : 0 ≤ min d 24 / 24 := by positivity
      have : 0 ≤ base_impacts event_type * severity_multipliers severity *
          (1/2 + 1/2 * (min d 24 / 24)) := by
        apply mul_nonneg hB; linarith
      exact le_min (by norm_num) this
    · rw [calculate_event_impact_score_eq]
      exact min_le_left _ _
  · intro _ hdd' _
    rw [calculate_event_impact_score_eq, calculate_event_impact_score_eq]
    have hmin : min d 24 ≤ min d' 24 := min_le_min hdd' le_rfl
    have hfac : (1:ℚ)/2 + 1/2 * (min d 24 / 24) ≤ 1/2 + 1/2 * (min d' 24 / 24) := by
      have : min d 24 / 24 ≤ min d' 24 / 24 :=
        div_le_div_of_nonneg_right hmin (by norm_num)
      linarith
    exact min_le_min le_rfl (mul_le_mul_of_nonneg_left hfac hB)
  · intro hd
    have h1 : min d 24 = 24 := min_eq_right hd
    have h2 : min (24:ℚ) 24 = 24 := min_self 24
    rw [calculate_event_impact_score_eq, calculate_event_impact_score_eq, h1, h2]

/-- Witness for the amended C3 theorem at concrete inputs. -/
theorem impact_score_bounds_and_monotone_witness :
    (0 ≤ calculate_event_impact_score "Cold" "Extreme" 3 ∧
      calculate_event_impact_score "Cold" "Extreme" 3 ≤ 10) ∧
    calculate_event_impact_score "Cold" "Extreme" 3 ≤
      calculate_event_impact_score "Cold" "Extreme" 4 ∧
    calculate_event_impact_score "Cold" "Extreme" 25 =
      calculate_event_impact_score "Cold" "Extreme" 24 :=
  ⟨(impact_score_bounds_and_monotone "Cold" "Extreme" 3 4).1 (by norm_num),
   (impact_score_bounds_and_monotone "Cold" "Extreme" 3 4).2.1 (by norm_num)
     (by norm_num) (by norm_num),
   (impact_score_bounds_and_monotone "Cold" "Extreme" 25 24).2.2 (by norm_num)⟩

/-- C5: `extract_temperature` depends only on event type and severity: for
Cold it returns 10/20/30 for Extreme/Severe/Moderate and 40 otherwise; for
Heat it returns 105/100/95 and 90 otherwise; for every other event type it
returns none. -/
theorem extract_temperature_table (severity event_type : String) :
    (event_type = "Cold" →
      extract_temperature severity event_type =
        some (if severity = "Extreme" then 10
          else if severity = "Severe" then 20
          else if severity = "Moderate" then 30 else 40)) ∧
    (event_type = "Heat" →
      extract_temperature severity event_type =
        some (if severity = "Extreme" then 105
          else if severity = "Severe" then 100
          else if severity = "Moderate" then 95 else 90)) ∧
    (event_type ≠ "Cold" → event_type ≠ "Heat" →
      extract_temperature severity event_type = none) := by
  refine ⟨?_, ?_, ?_⟩
  · intro h
    subst h
    simp only [extract_temperature, if_pos rfl]
    split_ifs <;> rfl
  · intro h
    subst h
    have hne : ("Heat" : String) ≠ "Cold" := by decide
    simp only [extract_temperature, if_neg hne, if_pos rfl]
    split_ifs <;> rfl
  · intro h1 h2
    simp only [extract_temperature, if_neg h1, if_neg h2]

/-- Witness for the C5 theorem at a concrete record. -/
theorem extract_temperature_table_witness :
    extract_temperature "Extreme" "Cold" = some 10 := by
  have h := (extract_temperature_table "Extreme" "Cold").1 rfl
  simpa using h

/-- C4: at daily flush time, a key with temperature samples gets
`hdd = max(0, 65 - avg)` and `cdd = max(0, avg - 65)` (at most one nonzero,
both zero exactly when the average is 65); a key without samples gets
absent temperatures and zero degree days. -/
theorem daily_flush_degree_days (date : Date) (location_id : String)
    (a : DailyAgg) :
    (a.temp_values ≠ [] →
      (dailyRowOf date location_id a).avg_temp = some (listAvg a.temp_values) ∧
      (dailyRowOf date location_id a).heating_degree_days =
        max 0 (65 - listAvg a.temp_values) ∧
      (dailyRowOf date location_id a).cooling_degree_days =
        max 0 (listAvg a.temp_values - 65) ∧
      ((dailyRowOf date location_id a).heating_degree_days = 0 ∨
        (dailyRowOf date location_id a).cooling_degree_days = 0) ∧
      ((dailyRowOf date location_id a).heating_degree_days = 0 ∧
        (dailyRowOf date location_id a).cooling_degree_days = 0 ↔
          listAvg a.temp_values = 65)) ∧
    (a.temp_values = [] →
      (dailyRowOf date location_id a).avg_temp = none ∧
      (dailyRowOf date location_id a).min_temp = none ∧
      (dailyRowOf date location_id a).max_temp = none ∧
      (dailyRowOf date location_id a).heating_degree_days = 0 ∧
      (dailyRowOf date location_id a).cooling_degree_days = 0) := by
  constructor
  · intro hne
    have hie : a.temp_values.isEmpty = false := by
      simpa [List.isEmpty_iff] using hne
    have h1 : (dailyRowOf date location_id a).avg_temp =
        some (listAvg a.temp_values) := by
      simp [dailyRowOf, hie]
    have h2 : (dailyRowOf date location_id a).heating_degree_days =
        max 0 (65 - listAvg a.temp_values) := by
      simp [dailyRowOf, hie]
    have h3 : (dailyRowOf date location_id a).cooling_degree_days =
        max 0 (listAvg a.temp_values - 65) := by
      simp [dailyRowOf, hie]
    refine ⟨h1, h2, h3, ?_, ?_⟩
    · rw [h2, h3]
      rcases le_total (listAvg a.temp_values) 65 with h | h
      · right
        exact max_eq_left (by linarith)
      · left
        exact max_eq_left (by linarith)
    · rw [h2, h3]
      constructor
      · rintro ⟨hx, hy⟩
        have hx2 : 65 - listAvg a.temp_values ≤ 0 := max_eq_left_iff.mp hx
        have hy2 : listAvg a.temp_values - 65 ≤ 0 := max_eq_left_iff.mp hy
        linarith
      · intro h
        rw [h]
        norm_num
  · intro he
    simp [dailyRowOf, he, listMin, listMax]

/-- Witness for the C4 theorem at a concrete aggregate. -/
theorem daily_flush_degree_days_witness :
    (([(80 : ℚ), 82, 78] : List ℚ) ≠ []) ∧
    (dailyRowOf ⟨2021, 7, 1⟩ "90210_CA"
        ⟨[(80 : ℚ), 82, 78], 0, 0, []⟩).cooling_degree_days =
      max 0 (listAvg [(80 : ℚ), 82, 78] - 65) :=
  ⟨by decide,
   ((daily_flush_degree_days ⟨2021, 7, 1⟩ "90210_CA"
      ⟨[(80 : ℚ), 82, 78], 0, 0, []⟩).1 (by decide)).2.2.1⟩

/-- C8: at monthly flush time, a key with temperature samples gets totals
`max(0, 65 - avg) * 30` and `max(0, avg - 65) * 30` with the fixed 30-day
multiplier for every month; a key without samples gets zero totals; in the
scenario with temperatures [80, 82, 78] in July 2021 at 90210_CA the total
cooling degree days equal 15 * 30. -/
theorem monthly_flush_degree_days (year month : Int) (location_id : String)
    (a : MonthlyAgg) :
    (a.temp_values ≠ [] →
      (monthlyRowOf year month location_id a).total_heating_degree_days =
        max 0 (65 - listAvg a.temp_values) * 30 ∧
      (monthlyRowOf year month location_id a).total_cooling_degree_days =
        max 0 (listAvg a.temp_values - 65) * 30) ∧
    (a.temp_values = [] →
      (monthlyRowOf year month location_id a).total_heating_degree_days = 0 ∧
      (monthlyRowOf year month location_id a).total_cooling_degree_days = 0) ∧
    (monthlyRowOf 2021 7 "90210_CA"
        ⟨[(80 : ℚ), 82, 78], 0, [], []⟩).total_cooling_degree_days = 15 * 30 := by
  refine ⟨?_, ?_, ?_⟩
  · intro hne
    have hie : a.temp_values.isEmpty = false := by
      simpa [List.isEmpty_iff] using hne
    constructor
    · simp [monthlyRowOf, hie]
    · simp [monthlyRowOf, hie]
  · intro he
    simp [monthlyRowOf, he]
  · have havg : listAvg [(80 : ℚ), 82, 78] = 80 := by
      simp [listAvg]
      norm_num
    simp only [monthlyRowOf, List.isEmpty_cons, Bool.false_eq_true, if_false, havg]
    norm_num

/-- Witness for the C8 theorem at a concrete aggregate. -/
theorem monthly_flush_degree_days_witness :
    (([(80 : ℚ), 82, 78] : List ℚ) ≠ []) ∧
    (monthlyRowOf 2021 7 "90210_CA"
        ⟨[(80 : ℚ), 82, 78], 0, [], []⟩).total_cooling_degree_days =
      max 0 (listAvg [(80 : ℚ), 82, 78] - 65) * 30 :=
  ⟨by decide,
   ((monthly_flush_degree_days 2021 7 "90210_CA"
      ⟨[(80 : ℚ), 82, 78], 0, [], []⟩).1 (by decide)).2⟩

/-- Heads of non-empty lists are members (helper for the location fallback). -/
theorem head?_mem_of_eq_some {α : Type} {l : List α} {a : α}
    (h : l.head? = some a) : a ∈ l :=
  List.mem_of_mem_head? (by simp [h])

/-- C10: `find_nearest_location` returns none exactly when the locations
table is empty, and any returned location is an existing row of the table
(for a zip code with no match it falls back to the first location of the
requested state, then to the first location of the table). -/
theorem find_nearest_location_total (db : DB) (zip_code : String)
    (state : Option String) :
    (find_nearest_location db zip_code state = none ↔ db.locations = []) ∧
    (∀ l, find_nearest_location db zip_code state = some l →
      l ∈ db.locations) := by
  cases state with
  | none =>
    cases hf : db.locations.find? (fun (l : LocationRow) => l.zip_code == zip_code) with
    | some r =>
      have hr : find_nearest_location db zip_code none = some r := by
        simp [find_nearest_location, hf]
      rw [hr]
      constructor
      · constructor
        · intro h
          simp at h
        · intro h
          rw [h] at hf
          simp at hf
      · intro l hl
        have : r = l := by simpa using hl
        subst this
        exact List.mem_of_find?_eq_some hf
    | none =>
      have hr : find_nearest_location db zip_code none = db.locations.head? := by
        simp [find_nearest_location, hf]
      rw [hr]
      exact ⟨List.head?_eq_none_iff, fun l hl => head?_mem_of_eq_some hl⟩
  | some st =>
    cases hf : db.locations.find?
        (fun (l : LocationRow) => l.zip_code == zip_code && l.state == st) with
    | some r =>
      have hr : find_nearest_location db zip_code (some st) = some r := by
        simp [find_nearest_location, hf]
      rw [hr]
      constructor
      · constructor
        · intro h
          simp at h
        · intro h
          rw [h] at hf
          simp at hf
      · intro l hl
        have : r = l := by simpa using hl
        subst this
        exact List.mem_of_find?_eq_some hf
    | none =>
      cases hf2 : db.locations.find? (fun (l : LocationRow) => l.state == st) with
      | some r =>
        have hr : find_nearest_location db zip_code (some st) = some r := by
          simp [find_nearest_location, hf, hf2]
        rw [hr]
        constructor
        · constructor
          · intro h
            simp at h
          · intro h
            rw [h] at hf2
            simp at hf2
        · intro l hl
          have : r = l := by simpa using hl
          subst this
          exact List.mem_of_find?_eq_some hf2
      | none =>
        have hr : find_nearest_location db zip_code (some st) = db.locations.head? := by
          simp [find_nearest_location, hf, hf2]
        rw [hr]
        exact ⟨List.head?_eq_none_iff, fun l hl => head?_mem_of_eq_some hl⟩

/-- Witness for the C10 theorem: a zip code with no related data on a
non-empty store still resolves to an existing location. -/
theorem find_nearest_location_total_witness :
    find_nearest_location sampleLocDB "99999" none = some sampleLocation ∧
    sampleLocation ∈ sampleLocDB.locations :=
  ⟨by decide,
   (find_nearest_location_total sampleLocDB "99999" none).2 sampleLocation (by decide)⟩

/-- C9: for a location absent from every table of the store and a
well-formed date range of `d = daysDiff` days, `get_degree_days` returns
the generic-tier estimate `total_hdd = 5 d`, `total_cdd = 3 d`,
`avg_hdd = 5`, `avg_cdd = 3`, `days_count = d`, flagged
`is_estimated = true` with `estimation_method = "generic"` (a best-effort
estimate rather than a failure). -/
theorem get_degree_days_generic_fallback (db : DB) (location_id : String)
    (start_date end_date : Date)
    (hs : start_date.Valid) (he : end_date.Valid)
    (hle : Date.le start_date end_date = true)
    (hloc : ∀ l ∈ db.locations, l.location_id ≠ location_id)
    (hd : ∀ r ∈ db.daily, r.location_id ≠ location_id)
    (hm : ∀ r ∈ db.monthly, r.location_id ≠ location_id) :
    get_degree_days db location_id start_date end_date =
      { total_hdd := 5 * (daysDiff start_date end_date : ℚ),
        total_cdd := 3 * (daysDiff start_date end_date : ℚ),
        avg_hdd := 5, avg_cdd := 3,
        days_count := daysDiff start_date end_date,
        is_estimated := true, estimation_method := some "generic" } := by
  have hdf : db.daily.filter (dailyInRange location_id start_date end_date) = [] := by
    apply List.filter_eq_nil_iff.mpr
    intro r hr
    simp only [dailyInRange, Bool.and_eq_true, beq_iff_eq]
    rintro ⟨⟨h1, _⟩, _⟩
    exact hd r hr h1
  have hmf : db.monthly.filter (monthlyInRange location_id start_date end_date) = [] := by
    apply List.filter_eq_nil_iff.mpr
    intro r hr
    simp only [monthlyInRange, Bool.and_eq_true, beq_iff_eq]
    rintro ⟨⟨h1, _⟩, _⟩
    exact hm r hr h1
  have hfind : db.locations.find? (fun l => l.location_id == location_id) = none := by
    apply List.find?_eq_none.mpr
    intro l hl
    simpa using hloc l hl
  simp [get_degree_days, hdf, hmf, hfind]

/-- Witness for the C9 theorem: the empty store at a concrete range. -/
theorem get_degree_days_generic_fallback_witness :
    (Date.Valid ⟨2021, 7, 1⟩ ∧ Date.Valid ⟨2021, 7, 3⟩ ∧
      daysDiff ⟨2021, 7, 1⟩ ⟨2021, 7, 3⟩ = 3) ∧
    get_degree_days ⟨[], [], [], []⟩ "90210_CA" ⟨2021, 7, 1⟩ ⟨2021, 7, 3⟩ =
      { total_hdd := 5 * ((daysDiff ⟨2021, 7, 1⟩ ⟨2021, 7, 3⟩ : Int) : ℚ),
        total_cdd := 3 * ((daysDiff ⟨2021, 7, 1⟩ ⟨2021, 7, 3⟩ : Int) : ℚ),
        avg_hdd := 5, avg_cdd := 3,
        days_count := daysDiff ⟨2021, 7, 1⟩ ⟨2021, 7, 3⟩,
        is_estimated := true, estimation_method := some "generic" } :=
  ⟨⟨by decide, by decide, by decide⟩,
   get_degree_days_generic_fallback ⟨[], [], [], []⟩ "90210_CA" ⟨2021, 7, 1⟩
     ⟨2021, 7, 3⟩ (by decide) (by decide) (by decide)
     (by simp) (by simp) (by simp)⟩

/-- C1: with a well-formed range, zero matching daily rows and at least one
matching monthly row, `get_degree_days` returns exactly the monthly-tier
estimate (the average of the `total/30` daily rates over the overlapping
months, scaled by the number of days in the range), flagged
`is_estimated = true`, and never the climate-zone or generic tier. -/
theorem get_degree_days_tier_order (db : DB) (location_id : String)
    (start_date end_date : Date)
    (hs : start_date.Valid) (he : end_date.Valid)
    (hle : Date.le start_date end_date = true)
    (hdaily : db.daily.filter (dailyInRange location_id start_date end_date) = [])
    (hmonthly : db.monthly.filter (monthlyInRange location_id start_date end_date) ≠ []) :
    get_degree_days db location_id start_date end_date =
      { total_hdd :=
          ((db.monthly.filter (monthlyInRange location_id start_date end_date)).map
            (fun r => r.total_heating_degree_days / 30)).sum /
          (((db.monthly.filter (monthlyInRange location_id start_date end_date)).length : ℚ)) *
          (daysDiff start_date end_date : ℚ),
        total_cdd :=
          ((db.monthly.filter (monthlyInRange location_id start_date end_date)).map
            (fun r => r.total_cooling_degree_days / 30)).sum /
          (((db.monthly.filter (monthlyInRange location_id start_date end_date)).length : ℚ)) *
          (daysDiff start_date end_date : ℚ),
        avg_hdd :=
          ((db.monthly.filter (monthlyInRange location_id start_date end_date)).map
            (fun r => r.total_heating_degree_days / 30)).sum /
          (((db.monthly.filter (monthlyInRange location_id start_date end_date)).length : ℚ)),
        avg_cdd :=
          ((db.monthly.filter (monthlyInRange location_id start_date end_date)).map
            (fun r => r.total_cooling_degree_days / 30)).sum /
          (((db.monthly.filter (monthlyInRange location_id start_date end_date)).length : ℚ)),
        days_count := daysDiff start_date end_date,
        is_estimated := true, estimation_method := none } ∧
    (get_degree_days db location_id start_date end_date).is_estimated = true ∧
    (get_degree_days db location_id start_date end_date).estimation_method ≠
      some "climate_zone" ∧
    (get_degree_days db location_id start_date end_date).estimation_method ≠
      some "generic" := by
  have hlen : ¬ (db.monthly.filter (monthlyInRange location_id start_date end_date)).length = 0 := by
    simpa [List.length_eq_zero] using hmonthly
  have heq : get_degree_days db location_id start_date end_date =
      { total_hdd :=
          ((db.monthly.filter (monthlyInRange location_id start_date end_date)).map
            (fun r => r.total_heating_degree_days / 30)).sum /
          (((db.monthly.filter (monthlyInRange location_id start_date end_date)).length : ℚ)) *
          (daysDiff start_date end_date : ℚ),
        total_cdd :=
          ((db.monthly.filter (monthlyInRange location_id start_date end_date)).map
            (fun r => r.total_cooling_degree_days / 30)).sum /
          (((db.monthly.filter (monthlyInRange location_id start_date end_date)).length : ℚ)) *
          (daysDiff start_date end_date : ℚ),
        avg_hdd :=
          ((db.monthly.filter (monthlyInRange location_id start_date end_date)).map
            (fun r => r.total_heating_degree_days / 30)).sum /
          (((db.monthly.filter (monthlyInRange location_id start_date end_date)).length : ℚ)),
        avg_cdd :=
          ((db.monthly.filter (monthlyInRange location_id start_date end_date)).map
            (fun r => r.total_cooling_degree_days / 30)).sum /
          (((db.monthly.filter (monthlyInRange location_id start_date end_date)).length : ℚ)),
        days_count := daysDiff start_date end_date,
        is_estimated := true, estimation_method := none } := by
    rw [get_degree_days]
    rw [hdaily]
    simp only [List.length_nil]
    rw [if_pos trivial, if_neg hlen]
  refine ⟨heq, ?_, ?_, ?_⟩ <;> rw [heq] <;> simp

/-- Witness for the C1 theorem: a store with no daily rows and one July
2021 monthly row answers a July 2021 query from the monthly tier. -/
theorem get_degree_days_tier_order_witness :
    (sampleMonthlyDB.daily.filter (dailyInRange "90210_CA" ⟨2021, 7, 1⟩ ⟨2021, 7, 3⟩) = [] ∧
     sampleMonthlyDB.monthly.filter (monthlyInRange "90210_CA" ⟨2021, 7, 1⟩ ⟨2021, 7, 3⟩) ≠ []) ∧
    (get_degree_days sampleMonthlyDB "90210_CA" ⟨2021, 7, 1⟩ ⟨2021, 7, 3⟩).is_estimated = true ∧
    (get_degree_days sampleMonthlyDB "90210_CA" ⟨2021, 7, 1⟩ ⟨2021, 7, 3⟩).estimation_method ≠
      some "climate_zone" :=
  ⟨⟨by decide, by decide⟩,
   (get_degree_days_tier_order sampleMonthlyDB "90210_CA" ⟨2021, 7, 1⟩ ⟨2021, 7, 3⟩
     (by decide) (by decide) (by decide) (by decide) (by decide)).2.1,
   (get_degree_days_tier_order sampleMonthlyDB "90210_CA" ⟨2021, 7, 1⟩ ⟨2021, 7, 3⟩
     (by decide) (by decide) (by decide) (by decide) (by decide)).2.2.1⟩

/-- What a sequence of keyed upserts leaves at key `k`: the last row
written under `k`, or the previous content when `k` is never written. -/
theorem applyUpserts_lookup {κ ρ : Type} [DecidableEq κ] (rows : List (κ × ρ))
    (t : κ → Option ρ) (k : κ) :
    applyUpserts t rows k =
      match lastVal rows k with
      | some v => some v
      | none => t k := by
  induction rows generalizing t with
  | nil => rfl
  | cons p rest ih =>
    have hstep : applyUpserts t (p :: rest) = applyUpserts (upsert t p.1 p.2) rest := rfl
    rw [hstep, ih]
    cases h : lastVal rest k with
    | some v => simp [lastVal, h]
    | none =>
      by_cases hk : k = p.1
      · subst hk
        simp [lastVal, h, upsert]
      · simp [lastVal, h, upsert, hk]

/-- Re-applying the same keyed upserts leaves a store unchanged. -/
theorem applyUpserts_idem {κ ρ : Type} [DecidableEq κ] (rows : List (κ × ρ))
    (t : κ → Option ρ) :
    applyUpserts (applyUpserts t rows) rows = applyUpserts t rows := by
  funext k
  rw [applyUpserts_lookup, applyUpserts_lookup]
  cases h : lastVal rows k with
  | some v => simp
  | none => simp [applyUpserts_lookup, h]

/-- C6: running the full pipeline twice on identical input produces
identical final aggregate-store contents — each run recomputes the
aggregates in fresh in-memory maps from the input alone, and every table
write is an insert-or-replace keyed on the table's primary key, so the
second run replaces each row with an equal row. -/
theorem pipeline_idempotent (input : List Event) (s : Store) :
    runPipeline input (runPipeline input s) = runPipeline input s := by
  show Store.mk _ _ _ _ = Store.mk _ _ _ _
  simp only [runPipeline, Store.mk.injEq]
  exact ⟨applyUpserts_idem _ _, applyUpserts_idem _ _,
    applyUpserts_idem _ _, applyUpserts_idem _ _⟩

/-- C7: `get_seasonal_adjustment_factors` yields an entry for each of the
12 calendar months (with pairwise distinct month keys), every factor is
clamped into [0.6, 1.8], and for a location whose stored monthly data
covers all 12 months with the same positive combined (avg hdd + avg cdd)
value in every month, every factor equals exactly 1. -/
theorem seasonal_adjustment_factors_spec (db : DB) (location_id : String)
    (c : ℚ) :
    (∀ m : Int, 1 ≤ m → m ≤ 12 →
      ∃ f, (m, f) ∈ get_seasonal_adjustment_factors db location_id) ∧
    ((get_seasonal_adjustment_factors db location_id).map (fun p => p.1)).Nodup ∧
    (∀ p ∈ get_seasonal_adjustment_factors db location_id,
      3/5 ≤ p.2 ∧ p.2 ≤ 9/5) ∧
    ((∀ r ∈ matchingMonthly db location_id, r.month ∈ monthsIcc) →
     (∀ m ∈ monthsIcc, m ∈ monthsPresent db location_id) →
     (∀ m ∈ monthsIcc,
        avg_hdd_for db location_id m + avg_cdd_for db location_id m = c) →
     0 < c →
     ∀ p ∈ get_seasonal_adjustment_factors db location_id, p.2 = 1) := by
  refine ⟨?_, ?_, ?_, ?_⟩
  · intro m h1 h12
    have hIcc : m ∈ monthsIcc := by
      interval_cases m <;> decide
    by_cases hm : m ∈ monthsPresent db location_id
    · refine ⟨_, List.mem_map.mpr
        ⟨(m, (avg_hdd_for db location_id m, avg_cdd_for db location_id m)), ?_, rfl⟩⟩
      unfold monthlyDataList
      exact List.mem_append_left _ (List.mem_map.mpr ⟨m, hm, rfl⟩)
    · refine ⟨_, List.mem_map.mpr ⟨(m, seasonalPlaceholder m), ?_, rfl⟩⟩
      unfold monthlyDataList
      apply List.mem_append_right
      apply List.mem_map.mpr
      refine ⟨m, List.mem_filter.mpr ⟨hIcc, by simpa using hm⟩, rfl⟩
  · have hkeys : (get_seasonal_adjustment_factors db location_id).map (fun p => p.1) =
        monthsPresent db location_id ++
          monthsIcc.filter (fun m => decide (m ∉ monthsPresent db location_id)) := by
      unfold get_seasonal_adjustment_factors monthlyDataList
      simp only [List.map_append, List.map_map]
      congr 1 <;> exact List.map_id'' (fun m => rfl) _
    rw [hkeys]
    refine List.Nodup.append (List.nodup_dedup _) (List.Nodup.filter _ (by decide)) ?_
    intro a ha hafil
    have h2 := (List.mem_filter.mp hafil).2
    simp at h2
    exact h2 ha
  · intro p hp
    obtain ⟨q, hq, rfl⟩ := List.mem_map.mp hp
    exact ⟨le_max_left _ _, max_le (by norm_num) (min_le_left _ _)⟩
  · intro hin hcov hc hpos
    have hsub : ∀ m ∈ monthsPresent db location_id, m ∈ monthsIcc := by
      intro m hm
      have hmm : m ∈ (matchingMonthly db location_id).map (fun r => r.month) :=
        List.mem_dedup.mp hm
      obtain ⟨r, hr, rfl⟩ := List.mem_map.mp hmm
      exact hin r hr
    have hfilnil : monthsIcc.filter
        (fun m => decide (m ∉ monthsPresent db location_id)) = [] := by
      apply List.filter_eq_nil_iff.mpr
      intro m hm
      simp
      exact hcov m hm
    have hmdl : monthlyDataList db location_id =
        (monthsPresent db location_id).map
          (fun m => (m, (avg_hdd_for db location_id m, avg_cdd_for db location_id m))) := by
      unfold monthlyDataList
      rw [hfilnil]
      simp
    have hnodup : (monthsPresent db location_id).Nodup := List.nodup_dedup _
    have hlen : (monthsPresent db location_id).length = 12 := by
      have htf : (monthsPresent db location_id).toFinset = monthsIcc.toFinset := by
        apply Finset.ext
        intro a
        simp only [List.mem_toFinset]
        exact ⟨fun h => hsub a h, fun h => hcov a h⟩
      have h1 : (monthsPresent db location_id).toFinset.card =
          (monthsPresent db location_id).length :=
        List.toFinset_card_of_nodup hnodup
      have h2 : monthsIcc.toFinset.card = monthsIcc.length :=
        List.toFinset_card_of_nodup (by decide)
      rw [htf, h2] at h1
      simpa using h1.symm
    have hsum : ((monthlyDataList db location_id).map (fun p => p.2.1 + p.2.2)).sum =
        12 * c := by
      rw [hmdl, List.map_map]
      have hcomp : ((fun p => p.2.1 + p.2.2) ∘
          (fun m => ((m, (avg_hdd_for db location_id m, avg_cdd_for db location_id m)) :
            Int × (ℚ × ℚ)))) =
          fun m => avg_hdd_for db location_id m + avg_cdd_for db location_id m := rfl
      rw [hcomp]
      have hmapc : (monthsPresent db location_id).map
          (fun m => avg_hdd_for db location_id m + avg_cdd_for db location_id m) =
          (monthsPresent db location_id).map (fun _ => c) :=
        List.map_congr_left (fun m hm => hc m (hsub m hm))
      rw [hmapc, List.map_const', hlen, List.sum_replicate, nsmul_eq_mul]
      norm_num
    have havgc : avg_combined db location_id = c := by
      unfold avg_combined
      rw [hsum]
      field_simp
    intro p hp
    obtain ⟨q, hq, rfl⟩ := List.mem_map.mp hp
    rw [hmdl] at hq
    obtain ⟨m, hm, rfl⟩ := List.mem_map.mp hq
    have hcomb : avg_hdd_for db location_id m + avg_cdd_for db location_id m = c :=
      hc m (hsub m hm)
    simp only [havgc, hcomb, if_pos hpos, div_self (ne_of_gt hpos)]
    norm_num [min_def, max_def]

/-- Witness for the C7 theorem: a location with uniform monthly degree days
(10 + 5 in every calendar month) gets the factor 1 for January. -/
theorem seasonal_adjustment_factors_spec_witness :
    ((1 : Int), (1 : ℚ)) ∈ get_seasonal_adjustment_factors sampleSeasonalDB "90210_CA" := by
  have hc : ∀ m ∈ monthsIcc,
      avg_hdd_for sampleSeasonalDB "90210_CA" m +
        avg_cdd_for sampleSeasonalDB "90210_CA" m = 15 := by
    intro m hm
    simp only [monthsIcc] at hm
    fin_cases hm <;>
      norm_num [avg_hdd_for, avg_cdd_for, matchingMonthly, sampleSeasonalDB, monthsIcc]
  obtain ⟨f, hf⟩ :=
    (seasonal_adjustment_factors_spec sampleSeasonalDB "90210_CA" 15).1 1
      (by norm_num) (by norm_num)
  have hone : f = 1 := by
    simpa using (seasonal_adjustment_factors_spec sampleSeasonalDB "90210_CA" 15).2.2.2
      (by decide) (by decide) hc (by norm_num) (1, f) hf
  subst hone
  exact hf
